import Mathlib

/-!
Verification of the VISION-VOICE assistive interface core (src/App.tsx).

The development shallowly embeds the pure and event-driven parts of the
application: the swipe classifier `analyzeGesture`, the gapless playback
scheduler of the voice-session `onmessage` callback, the session teardown
(`closeSession` / `stopAllAudio`), the calibration orientation handler,
the tap-collation and hold timers of the pointer handlers, the
`startVisionMode` mode transition, and the base64 `encode`/`decode` pair.
Pointer coordinates, clock times and orientation angles are modelled as
rationals (the JavaScript numbers involved are compared only with `<`, `>`
and combined with `+`, `-`, `*`, `max`, all exact on the values in play).
-/

namespace VisionVoice

/-- A pointer sample, as collected by `handlePointerDown`/`handlePointerMove`
into `pointsRef` (clientX/clientY). -/
structure Point where
  x : ℚ
  y : ℚ
deriving DecidableEq, Repr

/-- The four swipe gestures `analyzeGesture` can return (the TypeScript
string literals SWIPE_RIGHT / SWIPE_LEFT / SWIPE_DOWN / SWIPE_UP). -/
inductive Swipe where
  | right
  | left
  | down
  | up
deriving DecidableEq, Repr

/-- Guard of the horizontal branch of `analyzeGesture`
(src/App.tsx line 134): `absDx > 80 && absDx > absDy * 1.5`. -/
def horizSwipeCond (absDx absDy : ℚ) : Bool :=
  absDx > 80 && absDx > absDy * 1.5

/-- Guard of the vertical branch of `analyzeGesture`
(src/App.tsx line 137): `absDy > 80 && absDy > absDx * 1.5`. -/
def vertSwipeCond (absDx absDy : ℚ) : Bool :=
  absDy > 80 && absDy > absDx * 1.5

/-- `analyzeGesture` (src/App.tsx lines 125-141).  Returns `none` for traces
of fewer than 5 samples, otherwise classifies by the net displacement from
the first sample to the last; `none` stands for the `null` tap fallthrough.
The `headD`/`getLastD` defaults are never consulted: `points.length < 5`
has already returned `none` on the empty list. -/
def analyzeGesture (points : List Point) : Option Swipe :=
  if points.length < 5 then none
  else
    let start := points.headD ⟨0, 0⟩
    let last := points.getLastD ⟨0, 0⟩
    let dx := last.x - start.x
    let dy := last.y - start.y
    let absDx := |dx|
    let absDy := |dy|
    if horizSwipeCond absDx absDy then
      if dx > 0 then some .right else some .left
    else if vertSwipeCond absDx absDy then
      if dy > 0 then some .down else some .up
    else
      none

/-- The playback scheduling step of the `onmessage` callback
(src/App.tsx lines 302-309): given the cursor `nextStartTime`, the output
context clock `currentTime` and the decoded buffer `duration`, the chunk is
started at `max(nextStartTime, currentTime)` and the cursor advances by the
buffer's duration.  Returns (scheduled start, new cursor). -/
def scheduleChunk (nextStartTime currentTime duration : ℚ) : ℚ × ℚ :=
  let start := max nextStartTime currentTime
  (start, start + duration)

end VisionVoice

namespace VisionVoice

/-- Observable audio-session state touched by `closeSession` and
`startVoiceSession` (src/App.tsx lines 257-263 and 265-280):
the set of scheduled playback sources (`activeSources`, modelled by its
size), whether the remote session and the two audio contexts are open,
whether a microphone track acquired by `getUserMedia` inside
`startVoiceSession` is still live, and the playback cursor. -/
structure SessionState where
  activeSources : Nat
  sessionOpen : Bool
  ctxInOpen : Bool
  ctxOutOpen : Bool
  micTrackLive : Bool
  nextStartTime : ℚ
deriving DecidableEq, Repr

/-- `closeSession` (src/App.tsx lines 257-263): `stopAllAudio()` stops and
clears every scheduled source, the remote session and both audio contexts
are closed and nulled, and `nextStartTimeRef` resets to 0.  No statement in
the function stops the microphone track, so `micTrackLive` is carried
through unchanged. -/
def closeSessionState (s : SessionState) : SessionState :=
  { activeSources := 0, sessionOpen := false, ctxInOpen := false,
    ctxOutOpen := false, micTrackLive := s.micTrackLive, nextStartTime := 0 }

/-- Resource acquisition of `startVoiceSession` after `await closeSession()`
(src/App.tsx lines 276-280, 323): `getUserMedia` yields a new live
microphone track, both audio contexts are created, the remote session is
connected. -/
def acquireResources (s : SessionState) : SessionState :=
  { s with
    sessionOpen := true
    ctxInOpen := true
    ctxOutOpen := true
    micTrackLive := true }

/-- `startVoiceSession` (src/App.tsx lines 265-280): it first awaits
`closeSession()` and only then acquires the new resources. -/
def startVoiceSessionModel (s : SessionState) : SessionState :=
  acquireResources (closeSessionState s)

/-- The spec's notion of a full teardown for C3: no scheduled playback
sources remain, the remote session and both contexts are closed, and the
previous session's microphone track has been released. -/
def fullTeardown (s : SessionState) : Prop :=
  s.activeSources = 0 ∧ s.sessionOpen = false ∧ s.ctxInOpen = false ∧
  s.ctxOutOpen = false ∧ s.micTrackLive = false

instance (s : SessionState) : Decidable (fullTeardown s) := by
  unfold fullTeardown
  infer_instance

/-- A session-A state: session open, three chunks scheduled, both contexts
open, microphone track live. -/
def sessionAState : SessionState :=
  { activeSources := 3, sessionOpen := true, ctxInOpen := true,
    ctxOutOpen := true, micTrackLive := true, nextStartTime := 7 }

/-- Result of a primitive stop/close call: the Boolean flag records whether
this particular call throws. -/
def closeResource (throws : Bool) : Except Unit Unit :=
  if throws then .error () else .ok ()

/-- A `try { ... } catch (e) {}` wrapper: any raised error is swallowed. -/
def catchAll (act : Except Unit Unit) : Except Unit Unit :=
  match act with
  | .ok _ => .ok ()
  | .error _ => .ok ()

/-- The `if (ref) { try { ref.close(); } catch(e) {} ref = null; }` pattern
of `closeSession`: absent refs are skipped, present ones are closed with the
error swallowed. -/
def tryCloseRef (ref : Option Bool) : Except Unit Unit :=
  match ref with
  | some throws => catchAll (closeResource throws)
  | none => .ok ()

/-- The refs `closeSession` touches, with each live resource carrying a flag
saying whether stopping/closing it throws.  `activeSources` is the module
set of scheduled `AudioBufferSourceNode`s. -/
structure AudioRefs where
  activeSources : List Bool
  currentSession : Option Bool
  ctxIn : Option Bool
  ctxOut : Option Bool
  nextStartTime : ℚ
deriving DecidableEq, Repr

/-- `stopAllAudio` (src/App.tsx lines 96-99): each scheduled source is
stopped inside its own `try`/`catch`, then the set is cleared. -/
def stopAllAudio (sources : List Bool) : Except Unit Unit :=
  sources.foldl (fun acc throws =>
    Except.bind acc (fun _ => catchAll (closeResource throws))) (.ok ())

/-- `closeSession` (src/App.tsx lines 257-263) with its error handling:
stop all audio, then close the remote session, the input context and the
output context, each in its own `try`/`catch` with the ref nulled after,
finally reset the cursor. -/
def closeSessionRun (r : AudioRefs) : Except Unit AudioRefs :=
  Except.bind (stopAllAudio r.activeSources) (fun _ =>
  Except.bind (tryCloseRef r.currentSession) (fun _ =>
  Except.bind (tryCloseRef r.ctxIn) (fun _ =>
  Except.bind (tryCloseRef r.ctxOut) (fun _ =>
  .ok { activeSources := [], currentSession := none, ctxIn := none,
        ctxOut := none, nextStartTime := 0 }))))

/-- The mode flags `startVisionMode` reads and writes
(src/App.tsx lines 144-154). -/
structure ModeFlags where
  visionActive : Bool
  isNavMode : Bool
  isMapsMode : Bool
  isGuidanceActive : Bool
  isBlank : Bool
deriving DecidableEq, Repr

/-- Outcome of one `startVisionMode` call: the resulting mode flags, the
texts spoken, and whether the frame sampler and the voice session were
started. -/
structure VisionStartResult where
  flags : ModeFlags
  spoken : List String
  frameSamplerStarted : Bool
  voiceSessionStarted : Bool
deriving DecidableEq, Repr

/-- `startVisionMode` (src/App.tsx lines 327-347): it speaks "Vision Mode"
and clears the nav/maps/guidance/blank flags *before* the `try` block; on a
granted camera it sets `visionActive`, starts the frame-sampling interval
and calls `startVoiceSession('VISION')`; when `getUserMedia` rejects, the
`catch` block speaks "Camera access denied." and nothing else runs. -/
def startVisionModeModel (s : ModeFlags) (cameraGranted : Bool) : VisionStartResult :=
  let s1 : ModeFlags :=
    { s with
      isNavMode := false
      isMapsMode := false
      isGuidanceActive := false
      isBlank := false }
  if cameraGranted then
    { flags := { s1 with visionActive := true },
      spoken := ["Vision Mode"],
      frameSamplerStarted := true, voiceSessionStarted := true }
  else
    { flags := s1,
      spoken := ["Vision Mode", "Camera access denied."],
      frameSamplerStarted := false, voiceSessionStarted := false }

/-- A Navigator-mode flag state, used as the concrete input refuting C8 as
stated. -/
def navModeFlags : ModeFlags :=
  { visionActive := false, isNavMode := true, isMapsMode := false,
    isGuidanceActive := false, isBlank := false }

/-- A device-orientation reading with all three angles present. -/
structure Orientation where
  alpha : ℚ
  beta : ℚ
  gamma : ℚ
deriving DecidableEq, Repr

/-- The state `handleOrientation` reads and writes during calibration
(src/App.tsx lines 146, 172-173): the current step, the baseline
orientation (`initialOrientation`, `none` until the first full reading),
and the time of the last advance (`lastPromptTime`, initially 0). -/
structure CalibState where
  step : Nat
  baseline : Option Orientation
  lastPromptTime : ℚ
deriving DecidableEq, Repr

/-- The threshold switch of `handleOrientation` (src/App.tsx lines 221-226):
steps 1-4 test the alpha/beta deltas against the baseline; any other step
never advances on an orientation event. -/
def stepThreshold (step : Nat) (dAlpha dBeta : ℚ) : Bool :=
  match step with
  | 1 => dAlpha < -25 || dAlpha > 335
  | 2 => dAlpha > 25 || dAlpha < -335
  | 3 => dBeta < -20
  | 4 => dBeta > 20
  | _ => false

/-- `handleOrientation` (src/App.tsx lines 207-227): events with any null
angle are ignored; the first full reading only installs the baseline; then
the deltas are computed, events inside the 2500ms refractory window are
ignored, and a delta meeting the current step's threshold advances the step,
re-baselines the orientation and records the advance time. -/
def handleOrientation (s : CalibState) (now : ℚ)
    (alpha beta gamma : Option ℚ) : CalibState :=
  match alpha, beta, gamma with
  | some a, some b, some g =>
    match s.baseline with
    | none => { s with baseline := some ⟨a, b, g⟩ }
    | some base =>
      if now - s.lastPromptTime < 2500 then s
      else if stepThreshold s.step (a - base.alpha) (b - base.beta) then
        { step := s.step + 1, baseline := some ⟨a, b, g⟩, lastPromptTime := now }
      else s
  | _, _, _ => s

/-- The application phase (`appState`, src/App.tsx line 145). -/
inductive AppPhase where
  | INIT
  | LANGUAGE_PICKER
  | CALIBRATION
  | READY
deriving DecidableEq, Repr

/-- The skip button's onClick (src/App.tsx line 569): it sets the app state
to READY whatever the current phase and calibration step are. -/
def skipCalibration (_phase : AppPhase) (_step : Nat) : AppPhase := .READY

/-- The only intent the tap-collation path can emit. -/
inductive TapIntent where
  | doubleTap
deriving DecidableEq, Repr

/-- The tap-collation logic of `handlePointerUp` (src/App.tsx lines
480-492): each tap increments `tapCountRef`, clears any pending collation
timer and re-arms it to fire 300ms after that tap; when the timer fires, a
count of exactly 2 dispatches the mode-specific double-tap action (one
`DoubleTap` intent), and the count resets to 0 in every case.
`runTapSequence count deadline taps` replays the chronologically ordered
tap times in `taps` against that logic — the pending timer fires before a
tap whose time is at or past the deadline, and fires once more after the
last tap — returning the emitted intents in order. -/
def runTapSequence (count : Nat) (deadline : Option ℚ) : List ℚ → List TapIntent
  | [] =>
    match deadline with
    | some _ => if count = 2 then [.doubleTap] else []
    | none => []
  | t :: rest =>
    match deadline with
    | some d =>
      if d ≤ t then
        (if count = 2 then [.doubleTap] else []) ++
          runTapSequence 1 (some (t + 300)) rest
      else
        runTapSequence (count + 1) (some (t + 300)) rest
    | none => runTapSequence (count + 1) (some (t + 300)) rest

/-- State of the hold-to-talk timer armed by `handlePointerDown`
(src/App.tsx lines 445-450): the first trace point, the `isAnalyzing`
value captured by the timer callback's closure at pointer-down (plain
React state, unlike the ref-backed speaking/countdown flags), whether the
450ms timer is still pending, and whether the mic is held. -/
structure HoldState where
  p0 : Point
  capturedAnalyzing : Bool
  timerArmed : Bool
  micHeld : Bool
deriving DecidableEq, Repr

/-- `handlePointerDown` (src/App.tsx lines 445-450): the trace starts at
the down point and the 450ms hold timer is armed; the callback closes over
the current render's `isAnalyzing` value. -/
def pointerDownHold (p : Point) (analyzingAtDown : Bool) : HoldState :=
  ⟨p, analyzingAtDown, true, false⟩

/-- The movement test of `handlePointerMove` (src/App.tsx line 457):
`Math.sqrt((x-x0)^2 + (y-y0)^2) > 30`, stated on the squares; see
`movedBeyond30_iff_sqrt` for the equivalence with the source's square
root. -/
def movedBeyond30 (p0 p : Point) : Bool :=
  (p.x - p0.x) ^ 2 + (p.y - p0.y) ^ 2 > 900

/-- `handlePointerMove`'s effect on the hold timer (src/App.tsx lines
457-458): displacement beyond 30 units from the first point cancels the
pending timer. -/
def handleMoveHold (s : HoldState) (p : Point) : HoldState :=
  if movedBeyond30 s.p0 p then { s with timerArmed := false } else s

/-- The hold-timer callback (src/App.tsx lines 447-450), which runs only if
the timer is still pending when 450ms elapse.  `isSpeakingRef.current` and
`isCountingDownRef.current` are refs, so `speaking` and `countingDown` are
the values at fire time; `isAnalyzing` however is plain state read from the
closure created at pointer-down, so the callback consults the snapshot
`s.capturedAnalyzing`, not the value at fire time.  If none of the three
blocks, it sets `isMicHeld`. -/
def holdTimerFire (s : HoldState) (speaking countingDown : Bool) : HoldState :=
  if s.timerArmed then
    if speaking || countingDown || s.capturedAnalyzing then
      { s with timerArmed := false }
    else { s with timerArmed := false, micHeld := true }
  else s

/-- C6 as stated by the spec, instantiated at one scenario: a Hold is
produced only if no speech, countdown, or analysis is active at the moment
the timer fires.  `analyzingAtFire` is the actual `isAnalyzing` value when
the callback runs; the callback itself can only consult the snapshot
captured at pointer-down. -/
def holdFiresOnlyWithoutAnalysis (p0 : Point) (analyzingAtDown : Bool)
    (moves : List Point) (speaking countingDown analyzingAtFire : Bool) : Prop :=
  (holdTimerFire (moves.foldl handleMoveHold (pointerDownHold p0 analyzingAtDown))
      speaking countingDown).micHeld = true →
    speaking = false ∧ countingDown = false ∧ analyzingAtFire = false

/-- The base64 alphabet used by `btoa`/`atob`. -/
def b64Alphabet : List Char :=
  ['A', 'B', 'C', 'D', 'E', 'F', 'G', 'H', 'I', 'J', 'K', 'L', 'M',
   'N', 'O', 'P', 'Q', 'R', 'S', 'T', 'U', 'V', 'W', 'X', 'Y', 'Z',
   'a', 'b', 'c', 'd', 'e', 'f', 'g', 'h', 'i', 'j', 'k', 'l', 'm',
   'n', 'o', 'p', 'q', 'r', 's', 't', 'u', 'v', 'w', 'x', 'y', 'z',
   '0', '1', '2', '3', '4', '5', '6', '7', '8', '9', '+', '/']

/-- The base64 padding character. -/
def padChar : Char := '='

/-- Numeric value of a base64 digit, as `atob` reads it. -/
def b64Value (c : Char) : Nat := b64Alphabet.indexOf c

/-- Base64 digit for a 6-bit value, as `btoa` writes it. -/
def b64Digit (n : Nat) : Char := b64Alphabet.getD n padChar

/-- `encode` (src/App.tsx lines 101-105): the byte array is turned into a
binary string with `String.fromCharCode` and base64-encoded with `btoa`;
modelled bytewise — each quantum of three bytes becomes four digits, a
trailing quantum of one or two bytes is padded with `=`. -/
def encodeB64 : List Nat → List Char
  | [] => []
  | [b1] => [b64Digit (b1 / 4), b64Digit (b1 % 4 * 16), padChar, padChar]
  | [b1, b2] => [b64Digit (b1 / 4), b64Digit (b1 % 4 * 16 + b2 / 16),
      b64Digit (b2 % 16 * 4), padChar]
  | b1 :: b2 :: b3 :: rest =>
      b64Digit (b1 / 4) :: b64Digit (b1 % 4 * 16 + b2 / 16) ::
      b64Digit (b2 % 16 * 4 + b3 / 64) :: b64Digit (b3 % 64) :: encodeB64 rest

/-- `decode` (src/App.tsx lines 107-112): `atob` recovers the binary string
and `charCodeAt` reads the bytes back; modelled four digits to three bytes,
with `=` padding in the final quantum cutting it to one or two bytes. -/
def decodeB64 : List Char → List Nat
  | c1 :: c2 :: c3 :: c4 :: rest =>
      if c3 = padChar ∧ c4 = padChar ∧ rest = [] then
        [b64Value c1 * 4 + b64Value c2 / 16]
      else if c4 = padChar ∧ rest = [] then
        [b64Value c1 * 4 + b64Value c2 / 16,
         b64Value c2 % 16 * 16 + b64Value c3 / 4]
      else
        (b64Value c1 * 4 + b64Value c2 / 16) ::
        (b64Value c2 % 16 * 16 + b64Value c3 / 4) ::
        (b64Value c3 % 4 * 64 + b64Value c4) :: decodeB64 rest
  | _ => []

theorem swipe_guards_exclusive_aux (absDx absDy : ℚ) :
    ¬(horizSwipeCond absDx absDy = true ∧ vertSwipeCond absDx absDy = true) := by
  rintro ⟨h1, h2⟩
  simp only [horizSwipeCond, vertSwipeCond, Bool.and_eq_true, decide_eq_true_eq] at h1 h2
  obtain ⟨hx80, hxdom⟩ := h1
  obtain ⟨hy80, hydom⟩ := h2
  linarith

/-- C7: the horizontal guard (`absDx > 80 && absDx > absDy * 1.5`) and the
vertical guard (`absDy > 80 && absDy > absDx * 1.5`) of `analyzeGesture`
can never hold for the same pair of non-negative magnitudes: the two swipe
branches are mutually exclusive by construction. -/
theorem swipe_conds_mutually_exclusive (absDx absDy : ℚ)
    (_hx : 0 ≤ absDx) (_hy : 0 ≤ absDy) :
    ¬(horizSwipeCond absDx absDy = true ∧ vertSwipeCond absDx absDy = true) :=
  swipe_guards_exclusive_aux absDx absDy

/-- Witness for C7 at the concrete magnitudes (100, 90). -/
theorem swipe_conds_mutually_exclusive_witness :
    ¬(horizSwipeCond 100 90 = true ∧ vertSwipeCond 100 90 = true) :=
  swipe_conds_mutually_exclusive 100 90 (by norm_num) (by norm_num)

/-- C1: classification of a pointer trace by `analyzeGesture`.  Traces of
fewer than 5 samples yield `none` (the tap path); with at least 5 samples,
if `|dx| > 80` and `|dx| > 1.5 * |dy|` the result is `SWIPE_RIGHT` when
`dx > 0` and `SWIPE_LEFT` otherwise; if instead `|dy| > 80` and
`|dy| > 1.5 * |dx|` the result is `SWIPE_DOWN` when `dy > 0` and `SWIPE_UP`
otherwise (the horizontal branch, checked first, cannot fire then by mutual
exclusivity); in all remaining cases the result is `none`. -/
theorem analyzeGesture_spec (points : List Point) :
    (points.length < 5 → analyzeGesture points = none) ∧
    (5 ≤ points.length →
      (let start := points.headD ⟨0, 0⟩
       let last := points.getLastD ⟨0, 0⟩
       let dx := last.x - start.x
       let dy := last.y - start.y
       (|dx| > 80 ∧ |dx| > 1.5 * |dy| →
         analyzeGesture points = some (if dx > 0 then .right else .left)) ∧
       (|dy| > 80 ∧ |dy| > 1.5 * |dx| →
         analyzeGesture points = some (if dy > 0 then .down else .up)) ∧
       (¬(|dx| > 80 ∧ |dx| > 1.5 * |dy|) → ¬(|dy| > 80 ∧ |dy| > 1.5 * |dx|) →
         analyzeGesture points = none))) := by
  constructor
  · intro h
    simp [analyzeGesture, h]
  · intro hlen
    have hnotlt : ¬ points.length < 5 := by omega
    refine ⟨?_, ?_, ?_⟩
    · rintro ⟨h80, hdom⟩
      have hcond : horizSwipeCond
          |(points.getLastD ⟨0, 0⟩).x - (points.headD ⟨0, 0⟩).x|
          |(points.getLastD ⟨0, 0⟩).y - (points.headD ⟨0, 0⟩).y| = true := by
        simp only [horizSwipeCond, Bool.and_eq_true, decide_eq_true_eq]
        constructor
        · exact h80
        · linarith
      simp only [analyzeGesture, if_neg hnotlt, hcond, if_pos]
      split <;> rfl
    · rintro ⟨h80, hdom⟩
      have hvert : vertSwipeCond
          |(points.getLastD ⟨0, 0⟩).x - (points.headD ⟨0, 0⟩).x|
          |(points.getLastD ⟨0, 0⟩).y - (points.headD ⟨0, 0⟩).y| = true := by
        simp only [vertSwipeCond, Bool.and_eq_true, decide_eq_true_eq]
        constructor
        · exact h80
        · linarith
      have hhoriz : horizSwipeCond
          |(points.getLastD ⟨0, 0⟩).x - (points.headD ⟨0, 0⟩).x|
          |(points.getLastD ⟨0, 0⟩).y - (points.headD ⟨0, 0⟩).y| = false := by
        cases hcase : horizSwipeCond
            |(points.getLastD ⟨0, 0⟩).x - (points.headD ⟨0, 0⟩).x|
            |(points.getLastD ⟨0, 0⟩).y - (points.headD ⟨0, 0⟩).y| with
        | false => rfl
        | true =>
            exact (swipe_guards_exclusive_aux _ _ ⟨hcase, hvert⟩).elim
      simp only [analyzeGesture, if_neg hnotlt, hhoriz, hvert, Bool.false_eq_true,
        if_false, if_true]
      split <;> rfl
    · intro hh hv
      have hhoriz : horizSwipeCond
          |(points.getLastD ⟨0, 0⟩).x - (points.headD ⟨0, 0⟩).x|
          |(points.getLastD ⟨0, 0⟩).y - (points.headD ⟨0, 0⟩).y| = false := by
        simp only [horizSwipeCond, Bool.and_eq_true, decide_eq_true_eq,
          Bool.and_eq_false_iff, decide_eq_false_iff_not, not_lt]
        by_contra hc
        push_neg at hc
        exact hh ⟨by linarith [hc.1], by linarith [hc.2]⟩
      have hvert : vertSwipeCond
          |(points.getLastD ⟨0, 0⟩).x - (points.headD ⟨0, 0⟩).x|
          |(points.getLastD ⟨0, 0⟩).y - (points.headD ⟨0, 0⟩).y| = false := by
        simp only [vertSwipeCond, Bool.and_eq_true, decide_eq_true_eq,
          Bool.and_eq_false_iff, decide_eq_false_iff_not, not_lt]
        by_contra hc
        push_neg at hc
        exact hv ⟨by linarith [hc.1], by linarith [hc.2]⟩
      simp only [analyzeGesture, if_neg hnotlt, hhoriz, hvert, Bool.false_eq_true,
        if_false]

/-- Witness for C1: a 5-sample leftward trace classifies as `SWIPE_LEFT`,
a short 3-sample trace classifies as `none`. -/
theorem analyzeGesture_spec_witness :
    analyzeGesture [⟨200, 0⟩, ⟨150, 2⟩, ⟨120, 4⟩, ⟨110, 6⟩, ⟨100, 10⟩]
      = some .left ∧
    analyzeGesture [⟨0, 0⟩, ⟨50, 0⟩, ⟨200, 0⟩] = none := by
  constructor
  · have h := (analyzeGesture_spec
      [⟨200, 0⟩, ⟨150, 2⟩, ⟨120, 4⟩, ⟨110, 6⟩, ⟨100, 10⟩]).2 (by decide)
    have h2 := h.1 ⟨by norm_num, by norm_num⟩
    simpa using h2
  · exact (analyzeGesture_spec [⟨0, 0⟩, ⟨50, 0⟩, ⟨200, 0⟩]).1 (by decide)

/-- C2: each inbound chunk is scheduled at `max(nextStartTime, currentTime)`
and the cursor then advances by the chunk's duration; consequently, for any
two consecutively scheduled chunks, the second chunk's start is at least the
first chunk's start plus the first chunk's duration, whatever the clock
values at the two arrivals (arrival jitter). -/
theorem scheduleChunk_no_overlap
    (nst t1 d1 t2 d2 : ℚ) :
    (scheduleChunk nst t1 d1).1 = max nst t1 ∧
    (scheduleChunk nst t1 d1).2 = (scheduleChunk nst t1 d1).1 + d1 ∧
    (scheduleChunk (scheduleChunk nst t1 d1).2 t2 d2).1 ≥
      (scheduleChunk nst t1 d1).1 + d1 := by
  refine ⟨rfl, rfl, ?_⟩
  simp only [scheduleChunk]
  exact le_max_left _ _

/-- C3 counterexample: with session A open (scheduled sources, open
contexts, live microphone track), the teardown `startVoiceSession` performs
before acquiring is not the full teardown the claim states — the microphone
track of session A is still live afterwards, because `closeSession` never
stops it. -/
theorem closeSession_mic_not_released :
    ¬ fullTeardown (closeSessionState sessionAState) ∧
    (closeSessionState sessionAState).micTrackLive = true := by
  constructor
  · decide
  · rfl

/-- C3 amended: opening a new voice session always runs `closeSession`
before acquiring resources, and that teardown leaves zero scheduled
playback sources, closes the remote session and both audio contexts and
resets the cursor — but it does not release the previous microphone track,
which stays in whatever state it was. -/
theorem startVoiceSession_teardown_before_acquire (s : SessionState) :
    startVoiceSessionModel s = acquireResources (closeSessionState s) ∧
    (closeSessionState s).activeSources = 0 ∧
    (closeSessionState s).sessionOpen = false ∧
    (closeSessionState s).ctxInOpen = false ∧
    (closeSessionState s).ctxOutOpen = false ∧
    (closeSessionState s).nextStartTime = 0 ∧
    (closeSessionState s).micTrackLive = s.micTrackLive :=
  ⟨rfl, rfl, rfl, rfl, rfl, rfl, rfl⟩

theorem catchAll_ok (x : Except Unit Unit) : catchAll x = .ok () := by
  cases x <;> rfl

theorem tryCloseRef_ok (o : Option Bool) : tryCloseRef o = .ok () := by
  cases o with
  | none => rfl
  | some b => exact catchAll_ok _

theorem stopAllAudio_ok (l : List Bool) : stopAllAudio l = .ok () := by
  induction l with
  | nil => rfl
  | cons b t ih =>
      cases b <;> simpa [stopAllAudio, List.foldl_cons, catchAll, closeResource]
        using ih

/-- C9: `closeSession` never raises and always ends with every resource
closed: for every configuration of the refs — nothing open (idempotence),
or any subset of the sources, the remote session and the two contexts
throwing on stop/close — the run returns normally with all sources stopped
and cleared, all refs nulled and the cursor reset.  In particular a throw
from one resource never prevents the others from being closed. -/
theorem closeSession_idempotent_fault_tolerant (r : AudioRefs) :
    closeSessionRun r =
      .ok { activeSources := [], currentSession := none, ctxIn := none,
            ctxOut := none, nextStartTime := 0 } := by
  simp [closeSessionRun, stopAllAudio_ok, tryCloseRef_ok, Except.bind]

/-- C8 counterexample: with Navigator mode active before the attempt, a
denied camera leaves the interaction mode changed: `isNavMode` has been
cleared by the statements that run before the `try` block, so the flags
after the failed `startVisionMode` differ from the flags before it. -/
theorem startVisionMode_denied_changes_mode :
    (startVisionModeModel navModeFlags false).flags ≠ navModeFlags ∧
    navModeFlags.isNavMode = true ∧
    (startVisionModeModel navModeFlags false).flags.isNavMode = false := by
  refine ⟨?_, rfl, rfl⟩
  decide

/-- C8 amended: when the camera permission is denied, `startVisionMode`
fails gracefully in that it speaks "Camera access denied.", starts neither
the frame sampler nor a voice session, and leaves `visionActive` unchanged;
but the nav/maps/guidance/blank flags are cleared before the camera attempt,
so a previous Navigator or Maps mode is not preserved — the interaction
mode is unchanged only when it was already Idle. -/
theorem startVisionMode_denied_graceful (s : ModeFlags) :
    (startVisionModeModel s false).spoken
      = ["Vision Mode", "Camera access denied."] ∧
    (startVisionModeModel s false).voiceSessionStarted = false ∧
    (startVisionModeModel s false).frameSamplerStarted = false ∧
    (startVisionModeModel s false).flags.visionActive = s.visionActive ∧
    (startVisionModeModel s false).flags =
      { s with
        isNavMode := false
        isMapsMode := false
        isGuidanceActive := false
        isBlank := false } :=
  ⟨rfl, rfl, rfl, rfl, rfl⟩

/-- C4: during calibration the step counter advances on an orientation
event exactly when all three angles are non-null, a baseline exists, at
least 2500ms have elapsed since the last advance, and the delta from the
baseline meets the current step's threshold; each advance re-baselines the
orientation and records the advance time; the per-step thresholds are
step 1: dAlpha < -25 or > 335, step 2: dAlpha > 25 or < -335,
step 3: dBeta < -20, step 4: dBeta > 20; and the skip action transitions
the app phase directly to READY from any step 0-4. -/
theorem calibration_advance_spec (s : CalibState) (now : ℚ)
    (alpha beta gamma : Option ℚ) :
    ((handleOrientation s now alpha beta gamma).step = s.step + 1 ↔
      ∃ a b g base, alpha = some a ∧ beta = some b ∧ gamma = some g ∧
        s.baseline = some base ∧ 2500 ≤ now - s.lastPromptTime ∧
        stepThreshold s.step (a - base.alpha) (b - base.beta) = true) ∧
    (∀ a b g base, alpha = some a → beta = some b → gamma = some g →
      s.baseline = some base → 2500 ≤ now - s.lastPromptTime →
      stepThreshold s.step (a - base.alpha) (b - base.beta) = true →
      handleOrientation s now alpha beta gamma =
        { step := s.step + 1, baseline := some ⟨a, b, g⟩,
          lastPromptTime := now }) ∧
    (∀ dA dB : ℚ,
      (stepThreshold 1 dA dB = true ↔ (dA < -25 ∨ dA > 335)) ∧
      (stepThreshold 2 dA dB = true ↔ (dA > 25 ∨ dA < -335)) ∧
      (stepThreshold 3 dA dB = true ↔ dB < -20) ∧
      (stepThreshold 4 dA dB = true ↔ dB > 20)) ∧
    (∀ step ≤ 4, ∀ phase, skipCalibration phase step = .READY) := by
  refine ⟨?_, ?_, ?_, ?_⟩
  · cases alpha with
    | none =>
        simp only [handleOrientation]
        constructor
        · intro h; omega
        · rintro ⟨a, b, g, base, ha, hb, hg, hbase, hel, hth⟩
          simp at ha
    | some a =>
      cases beta with
      | none =>
          simp only [handleOrientation]
          constructor
          · intro h; omega
          · rintro ⟨a', b, g, base, ha, hb, hg, hbase, hel, hth⟩
            simp at hb
      | some b =>
        cases gamma with
        | none =>
            simp only [handleOrientation]
            constructor
            · intro h; omega
            · rintro ⟨a', b', g, base, ha, hb, hg, hbase, hel, hth⟩
              simp at hg
        | some g =>
          cases hbase : s.baseline with
          | none =>
              simp only [handleOrientation, hbase]
              constructor
              · intro h; simp at h
              · rintro ⟨a', b', g', base, ha, hb, hg, hbase', hel, hth⟩
                simp at hbase'
          | some base =>
              simp only [handleOrientation, hbase]
              by_cases hre : now - s.lastPromptTime < 2500
              · rw [if_pos hre]
                constructor
                · intro h; omega
                · rintro ⟨a', b', g', base', ha, hb, hg, hbase', hel, hth⟩
                  linarith
              · rw [if_neg hre]
                by_cases hth : stepThreshold s.step (a - base.alpha)
                    (b - base.beta) = true
                · rw [if_pos hth]
                  constructor
                  · intro _
                    exact ⟨a, b, g, base, rfl, rfl, rfl, rfl,
                      le_of_not_lt (fun hc => hre (by linarith)), hth⟩
                  · intro _; rfl
                · rw [if_neg hth]
                  constructor
                  · intro h; omega
                  · rintro ⟨a', b', g', base', ha, hb, hg, hbase', hel, hth'⟩
                    cases ha; cases hb; cases hg
                    cases Option.some.inj hbase'
                    exact absurd hth' hth
  · rintro a b g base rfl rfl rfl hbase hel hth
    have hre : ¬ now - s.lastPromptTime < 2500 := not_lt.2 hel
    simp only [handleOrientation, hbase, if_neg hre, hth, if_true]
  · intro dA dB
    refine ⟨?_, ?_, ?_, ?_⟩ <;>
      simp [stepThreshold]
  · intro step _ phase
    rfl

/-- Witness for C4: from step 1 with baseline (10, 20, 0) and last advance
at time 0, an event at time 3000 with alpha -20 (delta -30 < -25) advances
to step 2, re-baselines and records the time; and skipping from step 3
yields READY. -/
theorem calibration_advance_spec_witness :
    handleOrientation ⟨1, some ⟨10, 20, 0⟩, 0⟩ 3000
        (some (-20)) (some 25) (some 0) =
      ⟨2, some ⟨-20, 25, 0⟩, 3000⟩ ∧
    skipCalibration .CALIBRATION 3 = .READY := by
  constructor
  · exact (calibration_advance_spec ⟨1, some ⟨10, 20, 0⟩, 0⟩ 3000
      (some (-20)) (some 25) (some 0)).2.1 (-20) 25 0 ⟨10, 20, 0⟩
      rfl rfl rfl rfl (by norm_num) (by norm_num [stepThreshold])
  · exact (calibration_advance_spec ⟨1, some ⟨10, 20, 0⟩, 0⟩ 3000
      (some (-20)) (some 25) (some 0)).2.2.2 3 (by omega) .CALIBRATION

/-- C5: in the tap-collation path, two taps with the second within 300ms of
the first produce exactly one DoubleTap intent; a third tap within the
collation window yields no intent at all; and a single tap alone, with the
collation timer expiring, yields no intent. -/
theorem tap_collation_spec :
    (∀ t1 t2 : ℚ, t1 ≤ t2 → t2 < t1 + 300 →
      runTapSequence 0 none [t1, t2] = [.doubleTap]) ∧
    (∀ t1 t2 t3 : ℚ, t1 ≤ t2 → t2 ≤ t3 → t2 < t1 + 300 → t3 < t2 + 300 →
      runTapSequence 0 none [t1, t2, t3] = []) ∧
    (∀ t : ℚ, runTapSequence 0 none [t] = []) := by
  refine ⟨?_, ?_, ?_⟩
  · intro t1 t2 _ h2
    simp [runTapSequence, not_le.2 h2]
  · intro t1 t2 t3 _ _ h2 h3
    simp [runTapSequence, not_le.2 h2, not_le.2 h3]
  · intro t
    simp [runTapSequence]

/-- Witness for C5: taps at 0 and 100 give one DoubleTap; taps at 0, 100,
200 give none; a lone tap at 0 gives none. -/
theorem tap_collation_spec_witness :
    runTapSequence 0 none [0, 100] = [.doubleTap] ∧
    runTapSequence 0 none [0, 100, 200] = [] ∧
    runTapSequence 0 none [0] = [] :=
  ⟨tap_collation_spec.1 0 100 (by norm_num) (by norm_num),
   tap_collation_spec.2.1 0 100 200 (by norm_num) (by norm_num)
     (by norm_num) (by norm_num),
   tap_collation_spec.2.2 0⟩

theorem foldl_handleMoveHold (p0 : Point) (ca armed held : Bool)
    (moves : List Point) :
    moves.foldl handleMoveHold ⟨p0, ca, armed, held⟩ =
      ⟨p0, ca, armed && moves.all (fun p => !movedBeyond30 p0 p), held⟩ := by
  induction moves generalizing armed with
  | nil => simp
  | cons p rest ih =>
      simp only [List.foldl_cons, List.all_cons, handleMoveHold]
      cases hm : movedBeyond30 p0 p
      · simp only [hm, Bool.false_eq_true, if_false, ih, Bool.not_false,
          Bool.true_and]
      · simp only [hm, if_true, ih, Bool.not_true, Bool.false_and,
          Bool.and_false]

/-- C6 counterexample, the stale-closure interleaving: in Maps mode, taps
at t=0 and t=120 collate to a DoubleTap whose dispatch at t=420 (the
collation deadline 120+300) calls `describeLocation`, which sets
`isAnalyzing`; a pointer-down at t=200 armed the hold timer with the
then-current `isAnalyzing = false` captured in its closure; the hold timer
fires at t=650 = 200+450 > 420, so analysis is active at fire time, yet
the callback consults the stale snapshot and produces a Hold — the claim
that a Hold is produced only when no analysis is active at the moment the
timer fires is false on this run. -/
theorem hold_timer_stale_analysis :
    ¬ holdFiresOnlyWithoutAnalysis ⟨0, 0⟩ false [] false false true ∧
    runTapSequence 0 none [0, 120] = [.doubleTap] ∧
    (120 : ℚ) + 300 < 200 + 450 := by
  refine ⟨?_, ?_, by norm_num⟩
  · intro h
    simp only [holdFiresOnlyWithoutAnalysis] at h
    exact Bool.noConfusion (h rfl).2.2
  · norm_num [runTapSequence]

/-- C6 amended: the hold timer armed at pointer-down yields a held mic
exactly when no pointer move before the 450ms firing displaced more than
30 units from the first point (such a move cancels the timer), neither
speech nor countdown is active at the moment the timer fires (both read
through refs), and analysis was not active at the moment the timer was
armed — the callback checks the `isAnalyzing` snapshot captured at
pointer-down, not the value at fire time.  `moves` are the pointer moves
delivered before the timer fires. -/
theorem hold_timer_spec (p0 : Point) (analyzingAtDown : Bool)
    (moves : List Point) (speaking countingDown : Bool) :
    (holdTimerFire (moves.foldl handleMoveHold (pointerDownHold p0 analyzingAtDown))
        speaking countingDown).micHeld = true ↔
      (moves.all (fun p => !movedBeyond30 p0 p) = true ∧
       speaking = false ∧ countingDown = false ∧ analyzingAtDown = false) := by
  rw [pointerDownHold, foldl_handleMoveHold]
  simp only [holdTimerFire, Bool.true_and]
  cases hall : moves.all (fun p => !movedBeyond30 p0 p) <;>
    cases speaking <;> cases countingDown <;> cases analyzingAtDown <;> simp

/-- The squared displacement test `movedBeyond30` agrees with the source's
`Math.sqrt((x-x0)^2 + (y-y0)^2) > 30` (src/App.tsx line 457). -/
theorem movedBeyond30_iff_sqrt (p0 p : Point) :
    movedBeyond30 p0 p = true ↔
      Real.sqrt (((p.x - p0.x : ℚ) : ℝ) ^ 2 + ((p.y - p0.y : ℚ) : ℝ) ^ 2)
        > 30 := by
  simp only [movedBeyond30, decide_eq_true_eq, gt_iff_lt]
  rw [Real.lt_sqrt (by norm_num : (0 : ℝ) ≤ 30)]
  have h30 : ((30 : ℝ)) ^ 2 = 900 := by norm_num
  rw [h30]
  constructor
  · intro h
    exact_mod_cast h
  · intro h
    exact_mod_cast h

theorem b64_table_roundtrip :
    ∀ n < 64, b64Value (b64Digit n) = n ∧ b64Digit n ≠ padChar := by decide

theorem b64Value_b64Digit (n : Nat) (h : n < 64) :
    b64Value (b64Digit n) = n := (b64_table_roundtrip n h).1

theorem b64Digit_ne_pad (n : Nat) (h : n < 64) : b64Digit n ≠ padChar :=
  (b64_table_roundtrip n h).2

/-- C10: for every byte array, decoding the base64 encoding returns the
original bytes — the `encode` used for outgoing audio frames and the
`decode` used for inbound playback chunks form an exact round trip. -/
theorem decode_encode_roundtrip :
    ∀ (bytes : List Nat), (∀ b ∈ bytes, b < 256) →
      decodeB64 (encodeB64 bytes) = bytes
  | [], _ => rfl
  | [b1], h => by
      have hb1 : b1 < 256 := h b1 (by simp)
      simp only [encodeB64, decodeB64]
      rw [if_pos (by simp)]
      rw [b64Value_b64Digit _ (by omega), b64Value_b64Digit _ (by omega)]
      simp only [List.cons.injEq, and_true]
      omega
  | [b1, b2], h => by
      have hb1 : b1 < 256 := h b1 (by simp)
      have hb2 : b2 < 256 := h b2 (by simp)
      have hd3 : b64Digit (b2 % 16 * 4) ≠ padChar := b64Digit_ne_pad _ (by omega)
      simp only [encodeB64, decodeB64]
      rw [if_neg (fun hc => hd3 hc.1), if_pos (by simp)]
      rw [b64Value_b64Digit _ (by omega), b64Value_b64Digit _ (by omega),
          b64Value_b64Digit _ (by omega)]
      simp only [List.cons.injEq, and_true]
      omega
  | b1 :: b2 :: b3 :: rest, h => by
      have hb1 : b1 < 256 := h b1 (by simp)
      have hb2 : b2 < 256 := h b2 (by simp)
      have hb3 : b3 < 256 := h b3 (by simp)
      have ih := decode_encode_roundtrip rest (fun b hb => h b (by simp [hb]))
      have hd3 : b64Digit (b2 % 16 * 4 + b3 / 64) ≠ padChar :=
        b64Digit_ne_pad _ (by omega)
      have hd4 : b64Digit (b3 % 64) ≠ padChar := b64Digit_ne_pad _ (by omega)
      simp only [encodeB64, decodeB64]
      rw [if_neg (fun hc => hd3 hc.1), if_neg (fun hc => hd4 hc.1)]
      rw [b64Value_b64Digit _ (by omega), b64Value_b64Digit _ (by omega),
          b64Value_b64Digit _ (by omega), b64Value_b64Digit _ (by omega)]
      rw [ih]
      simp only [List.cons.injEq, and_true]
      omega

/-- Witness for C10: the bytes [0, 255, 16, 72] (a full quantum plus a
padded one-byte quantum) round-trip exactly. -/
theorem decode_encode_roundtrip_witness :
    decodeB64 (encodeB64 [0, 255, 16, 72]) = [0, 255, 16, 72] :=
  decode_encode_roundtrip [0, 255, 16, 72] (by decide)

end VisionVoice
